import Mathlib

/-!
Verification development for the enlightener-frontend repository.

The repository contains a reading-dashboard frontend (Vue components over
fetch-based API wrappers in src/api) together with prioritization-spec.md,
the design document of a backend article-prioritization engine whose
implementation lives outside this repository.  The engine components
(aggregator, metric-score clamping, content resolver, freshness scorer,
ranking reporter) are therefore modelled here from the specification text;
the frontend API functions (fetchPrioritizedArticles, archiveArticle and the
PrioritizedArticles view handler, fetchDailyCounts, fetchEpisodes,
calculateReadingTime) are shallow embeddings of the TypeScript source.
-/

namespace Prioritization

/-- Modelled from the spec: the six ComponentScores produced by the metric
extractors (spec section 3 and prioritization-spec.md sections 2 to 7), each
nominally in the range 1 to 10.  The engine implementation is not part of
this repository.  Scores are rationals, modelling exact arithmetic. -/
structure ComponentScores where
  quality : ℚ
  info_density : ℚ
  readability : ℚ
  topic_relevance : ℚ
  freshness : ℚ
  engagement : ℚ
  deriving Repr, DecidableEq

/-- Modelled from the spec: the Priority Aggregator of spec section 4.3 /
prioritization-spec.md "Priority Scoring Algorithm":
priority_score = (quality * 0.25 + info_density * 0.15 + readability * 0.15 +
relevance * 0.20 + freshness * 0.10 + engagement * 0.15) * 10. -/
def aggregate (cs : ComponentScores) : ℚ :=
  (cs.quality * (25 / 100) +
      cs.info_density * (15 / 100) +
      cs.readability * (15 / 100) +
      cs.topic_relevance * (20 / 100) +
      cs.freshness * (10 / 100) +
      cs.engagement * (15 / 100)) * 10

/-- Modelled from the spec: each component score is "independently clamped
to [1,10]" (spec section 3, ComponentScores invariant). -/
def clampScore (x : ℚ) : ℚ := max 1 (min 10 x)

/-- Modelled from the spec: a metric extractor maps resolved text and a raw
signal to a score; "empty input text must not raise; must return the defined
minimum (1) rather than NaN/undefined" (spec section 4.2), and otherwise the
raw signal is clamped to [1,10].  The concrete extractors are not part of
this repository; only the clamping envelope they share is modelled. -/
def metricScore (resolvedText : String) (rawSignal : ℚ) : ℚ :=
  if resolvedText.isEmpty then 1 else clampScore rawSignal

/-- All six component scores lie in the interval [1,10]. -/
def validScores (cs : ComponentScores) : Prop :=
  (1 ≤ cs.quality ∧ cs.quality ≤ 10) ∧
    (1 ≤ cs.info_density ∧ cs.info_density ≤ 10) ∧
    (1 ≤ cs.readability ∧ cs.readability ≤ 10) ∧
    (1 ≤ cs.topic_relevance ∧ cs.topic_relevance ≤ 10) ∧
    (1 ≤ cs.freshness ∧ cs.freshness ≤ 10) ∧
    (1 ≤ cs.engagement ∧ cs.engagement ≤ 10)

instance (cs : ComponentScores) : Decidable (validScores cs) := by
  unfold validScores
  exact inferInstance

/-- Modelled from the spec: one scored article of a RankingResult, carrying
"{article identifier, title, url, word_count, priority_score,
component_scores}" (spec section 3, RankingResult). -/
structure ScoredArticle where
  article_id : String
  title : String
  url : String
  word_count : ℕ
  priority_score : ℚ
  component_scores : ComponentScores
  deriving Repr, DecidableEq

/-- Descending order on composite scores: a comes before b when the score of
b is at most the score of a. -/
def scoreDesc (a b : ScoredArticle) : Prop :=
  b.priority_score ≤ a.priority_score

instance : DecidableRel scoreDesc :=
  fun a b => inferInstanceAs (Decidable (b.priority_score ≤ a.priority_score))

instance : IsTotal ScoredArticle scoreDesc :=
  ⟨fun a b => le_total b.priority_score a.priority_score⟩

instance : IsTrans ScoredArticle scoreDesc :=
  ⟨fun _ _ _ h1 h2 => le_trans h2 h1⟩

/-- Modelled from the spec: the batch metadata of a RankingResult,
"{total_processed, min_score, max_score, returned_count}". -/
structure RankingMetadata where
  total_processed : ℕ
  min_score : ℚ
  max_score : ℚ
  returned_count : ℕ
  deriving Repr, DecidableEq

/-- Modelled from the spec: a RankingResult, an ordered sequence of scored
articles plus batch metadata. -/
structure RankingResult where
  articles : List ScoredArticle
  metadata : RankingMetadata
  deriving Repr, DecidableEq

/-- Minimum of a list of scores (0 for an empty batch, which the ranking
contract never exercises). -/
def batchMin : List ℚ → ℚ
  | [] => 0
  | s :: rest => rest.foldl min s

/-- Maximum of a list of scores (0 for an empty batch). -/
def batchMax : List ℚ → ℚ
  | [] => 0
  | s :: rest => rest.foldl max s

/-- Modelled from the spec: the Ranking Reporter (spec section 4.4 /
prioritization-spec.md "Processing Flow"): sort the scored batch by
descending priority score, return the top-N slice, and attach metadata
(processed count, min and max score) computed over the whole batch. -/
def rank (records : List ScoredArticle) (topN : ℕ) : RankingResult :=
  let sorted := List.insertionSort scoreDesc records
  let returned := sorted.take topN
  { articles := returned
    metadata :=
      { total_processed := records.length
        min_score := batchMin (records.map ScoredArticle.priority_score)
        max_score := batchMax (records.map ScoredArticle.priority_score)
        returned_count := returned.length } }

/-- A concrete scored batch used to instantiate the ranking contract. -/
def exampleBatch : List ScoredArticle :=
  [⟨"a1", "Title one", "https://one", 1200, 87, ⟨9, 9, 7, 9, 8, 8⟩⟩,
    ⟨"a2", "Title two", "https://two", 800, 55, ⟨5, 6, 6, 5, 5, 6⟩⟩,
    ⟨"a3", "Title three", "https://three", 400, 63, ⟨6, 7, 6, 6, 7, 6⟩⟩]

/-- Modelled from the spec: the provenance tag of ResolvedContent,
"fetched | stored_content | summary | none" (spec section 3). -/
inductive Provenance where
  | fetched
  | stored_content
  | summary
  | none
  deriving Repr, DecidableEq

/-- Modelled from the spec: ResolvedContent, "the text string used for
analysis plus a provenance tag" (spec section 3). -/
structure ResolvedContent where
  text : String
  provenance : Provenance
  deriving Repr, DecidableEq

/-- Modelled from the spec: the minimum viable length check of the Content
Resolver, "non-empty after whitespace trim" (spec section 4.1): the string
contains at least one character that is not whitespace. -/
def viableText (s : String) : Bool :=
  s.data.any fun c => !c.isWhitespace

/-- Modelled from the spec: step 3 of the Content Resolver fallback chain,
"fall back to summary; if all are absent, return provenance none with empty
text" (spec section 4.1). -/
def resolveFromSummary (summaryField : Option String) : ResolvedContent :=
  match summaryField with
  | some s => if viableText s then ⟨s, Provenance.summary⟩ else ⟨"", Provenance.none⟩
  | Option.none => ⟨"", Provenance.none⟩

/-- Modelled from the spec: step 2 of the Content Resolver fallback chain,
"fall back to the stored content field; if that is absent/empty, fall back
to summary" (spec section 4.1). -/
def resolveFromStored (content summaryField : Option String) : ResolvedContent :=
  match content with
  | some c =>
    if viableText c then ⟨c, Provenance.stored_content⟩
    else resolveFromSummary summaryField
  | Option.none => resolveFromSummary summaryField

/-- Modelled from the spec: the Content Resolver contract resolve(record) of
spec section 4.1.  The network fetch from source_url is modelled by its
outcome: some extracted text, or Option.none for a network error, timeout or
non-2xx response.  All failures fall through the chain; the function is
total, so no failure is propagated as a fatal error. -/
def resolve (fetchOutcome content summaryField : Option String) : ResolvedContent :=
  match fetchOutcome with
  | some t =>
    if viableText t then ⟨t, Provenance.fetched⟩
    else resolveFromStored content summaryField
  | Option.none => resolveFromStored content summaryField

/-- Modelled from the spec: the age used by the Freshness Assessor,
"age = now − (published_date if present, else saved_at)" (spec section 4.2,
Freshness).  Times are rationals (days). -/
def articleAge (now : ℚ) (published_date : Option ℚ) (saved_at : ℚ) : ℚ :=
  now - published_date.getD saved_at

/-- Modelled from the spec: the Freshness Assessor, "apply an exponential
(or equivalent monotonic) decay with a configurable half-life; apply an
evergreen floor" (spec section 4.2).  The decay function is a parameter;
the evergreen floor is applied on top of it. -/
def freshnessScore (decay : ℚ → ℚ) (evergreenFloor : ℚ) (now : ℚ)
    (published_date : Option ℚ) (saved_at : ℚ) : ℚ :=
  max evergreenFloor (decay (articleAge now published_date saved_at))

end Prioritization

namespace Frontend

/-- An HTTP response as the frontend fetch wrappers observe it: the ok flag,
the numeric status, and the JSON body already parsed into the payload
type. -/
structure HttpResponse (β : Type) where
  ok : Bool
  status : ℕ
  body : β
  deriving Repr, DecidableEq

/-- The component_scores object of src/types/PrioritizedArticle.ts. -/
structure ComponentScores where
  quality : ℚ
  information_density : ℚ
  readability : ℚ
  topic_relevance : ℚ
  freshness : ℚ
  engagement_potential : ℚ
  deriving Repr, DecidableEq

/-- The Article interface of src/types/Article.ts.  TypeScript strings are
String, nullable strings are Option String, numbers are ℚ (or ℕ for the
word count, ℤ for the millisecond timestamp), and the open-ended tags record
is a list of key-value pairs. -/
structure Article where
  _id : String
  id : String
  url : String
  title : String
  author : Option String
  source : Option String
  category : String
  location : String
  tags : List (String × String)
  site_name : Option String
  word_count : ℕ
  created_at : String
  updated_at : String
  published_date : ℤ
  summary : Option String
  image_url : Option String
  content : Option String
  source_url : String
  notes : String
  parent_id : Option String
  reading_progress : ℚ
  first_opened_at : Option String
  last_opened_at : Option String
  saved_at : String
  last_moved_at : String
  shortlisted : Option Bool
  deriving Repr, DecidableEq

/-- The PrioritizedArticle interface of src/types/PrioritizedArticle.ts:
an Article plus priority_score and component_scores. -/
structure PrioritizedArticle extends Article where
  priority_score : ℚ
  component_scores : ComponentScores
  deriving Repr, DecidableEq

/-- The metadata object returned by GET /prioritization/sample, as typed in
fetchPrioritizedArticles (src/api/articles.ts). -/
structure PrioritizationMetadata where
  total_processed : ℕ
  min_score : ℚ
  max_score : ℚ
  returned_count : ℕ
  deriving Repr, DecidableEq

/-- The full payload returned by fetchPrioritizedArticles
(src/api/articles.ts). -/
structure PrioritizedPayload where
  articles : List PrioritizedArticle
  metadata : PrioritizationMetadata
  deriving Repr, DecidableEq

/-- BASE_API_URL of src/api/articles.ts: the VITE_API_URL environment value
with the /reader suffix. -/
def BASE_API_URL (apiUrl : String) : String := apiUrl ++ "/reader"

/-- The request URL of fetchPrioritizedArticles (src/api/articles.ts). -/
def prioritizedSampleUrl (apiUrl : String) : String :=
  apiUrl ++ "/prioritization/sample"

/-- The error message thrown by the fetch wrappers on a non-ok response. -/
def httpErrorMessage (status : ℕ) : String :=
  "HTTP error! status: " ++ toString status

/-- fetchPrioritizedArticles of src/api/articles.ts, as a function of the
observed HTTP response: on an ok response return the parsed body unchanged,
otherwise throw the HTTP error (the catch block logs and rethrows, so the
error propagates to the caller). -/
def fetchPrioritizedArticles (resp : HttpResponse PrioritizedPayload) :
    Except String PrioritizedPayload :=
  if resp.ok then Except.ok resp.body
  else Except.error (httpErrorMessage resp.status)

/-- The HTTP method used by archiveArticle (src/api/articles.ts). -/
def archiveArticleMethod : String := "POST"

/-- The request URL of archiveArticle (src/api/articles.ts):
BASE_API_URL/articles/{id}/archive. -/
def archiveArticleUrl (apiUrl articleId : String) : String :=
  BASE_API_URL apiUrl ++ "/articles/" ++ articleId ++ "/archive"

/-- archiveArticle of src/api/articles.ts, as a function of the observed
HTTP response: resolve on ok, throw the HTTP error otherwise. -/
def archiveArticle (resp : HttpResponse Unit) : Except String Unit :=
  if resp.ok then Except.ok () else Except.error (httpErrorMessage resp.status)

/-- handleArchive of the PrioritizedArticles view: when archiveArticle
resolves, the displayed list is replaced by the same list with every entry
whose id equals the archived id filtered out; when it throws, the list is
left untouched (only the toast state changes). -/
def handleArchive (outcome : Except String Unit) (articleId : String)
    (articles : List PrioritizedArticle) : List PrioritizedArticle :=
  match outcome with
  | Except.ok _ => articles.filter fun a => a.id != articleId
  | Except.error _ => articles

/-- The DailyCount interface of src/api/stats.ts. -/
structure DailyCount where
  date : String
  count : ℕ
  deriving Repr, DecidableEq

/-- The ReadingCounts interface of src/api/stats.ts. -/
structure ReadingCounts where
  archived_count : ℕ
  later_count : ℕ
  deriving Repr, DecidableEq

/-- The daily_counts object inside StatsResponse (src/api/stats.ts). -/
structure DailyCountsBlock where
  archived : List DailyCount
  later : List DailyCount
  deriving Repr, DecidableEq

/-- The StatsResponse interface of src/api/stats.ts. -/
structure StatsResponse where
  total_counts : ReadingCounts
  daily_counts : DailyCountsBlock
  deriving Repr, DecidableEq

/-- The object returned by fetchDailyCounts (src/api/stats.ts). -/
structure DailyCountsResult where
  readCounts : List DailyCount
  savedCounts : List DailyCount
  totalCounts : ReadingCounts
  deriving Repr, DecidableEq

/-- The request URL of fetchDailyCounts (src/api/stats.ts). -/
def statsUrl (apiUrl : String) : String := BASE_API_URL apiUrl ++ "/stats"

/-- fetchDailyCounts of src/api/stats.ts, as a function of the observed
HTTP response: on ok, repackage daily_counts.archived as readCounts,
daily_counts.later as savedCounts and total_counts as totalCounts;
otherwise throw. -/
def fetchDailyCounts (resp : HttpResponse StatsResponse) :
    Except String DailyCountsResult :=
  if resp.ok then
    Except.ok
      { readCounts := resp.body.daily_counts.archived
        savedCounts := resp.body.daily_counts.later
        totalCounts := resp.body.total_counts }
  else Except.error "Failed to fetch stats"

/-- One raw episode object of the /podcasts/latest response, with the
snake_case keys read by fetchEpisodes (src/api/episodes.ts). -/
structure RawEpisode where
  episode_title : String
  audio_url : String
  overcast_url : String
  overcast_id : String
  published_date : String
  play_progress : Option ℚ
  last_played_at : String
  summary : String
  deriving Repr, DecidableEq

/-- One raw podcast object of the /podcasts/latest response. -/
structure RawPodcast where
  podcast_title : String
  artwork_url : String
  episodes : List RawEpisode
  deriving Repr, DecidableEq

/-- The Episode interface of src/types/Episode.ts (camelCase fields). -/
structure Episode where
  episodeTitle : String
  audioUrl : String
  overcastUrl : String
  overcastId : String
  publishedDate : String
  playProgress : Option ℚ
  lastPlayedAt : String
  summary : String
  deriving Repr, DecidableEq

/-- The Podcast interface of src/types/Episode.ts. -/
structure Podcast where
  podcastTitle : String
  artworkUrl : String
  episodes : List Episode
  deriving Repr, DecidableEq

/-- The request URL of fetchEpisodes (src/api/episodes.ts). -/
def podcastsLatestUrl (apiUrl : String) : String :=
  apiUrl ++ "/podcasts/latest"

/-- fetchEpisodes of src/api/episodes.ts, as a function of the observed HTTP
response: on ok, map every raw podcast to the camelCase Podcast shape,
mapping each raw episode field by field; otherwise throw the HTTP error. -/
def fetchEpisodes (resp : HttpResponse (List RawPodcast)) :
    Except String (List Podcast) :=
  if resp.ok then
    Except.ok (resp.body.map fun podcast =>
      { podcastTitle := podcast.podcast_title
        artworkUrl := podcast.artwork_url
        episodes := podcast.episodes.map fun episode =>
          { episodeTitle := episode.episode_title
            audioUrl := episode.audio_url
            overcastUrl := episode.overcast_url
            overcastId := episode.overcast_id
            publishedDate := episode.published_date
            playProgress := episode.play_progress
            lastPlayedAt := episode.last_played_at
            summary := episode.summary } })
  else Except.error (httpErrorMessage resp.status)

/-- A concrete Article record used to instantiate the frontend contracts. -/
def exampleArticle : Article :=
  { _id := "66d32ec67735929f1ca609af"
    id := "art-1"
    url := "https://read.example/one"
    title := "Five Most Productive Years"
    author := some "A. Author"
    source := Option.none
    category := "article"
    location := "later"
    tags := []
    site_name := some "example.com"
    word_count := 14102
    created_at := "2024-01-01"
    updated_at := "2024-02-01"
    published_date := 1700000000000
    summary := some "A summary."
    image_url := Option.none
    content := Option.none
    source_url := "https://example.com/one"
    notes := ""
    parent_id := Option.none
    reading_progress := 0
    first_opened_at := Option.none
    last_opened_at := Option.none
    saved_at := "2024-01-01"
    last_moved_at := "2024-02-01"
    shortlisted := Option.none }

/-- A concrete PrioritizedArticle with a given id and composite score. -/
def examplePrioritized (articleId : String) (score : ℚ) : PrioritizedArticle :=
  { toArticle := { exampleArticle with id := articleId }
    priority_score := score
    component_scores := ⟨9, 9, 7, 9, 8, 8⟩ }

/-- A concrete prioritization payload. -/
def examplePayload : PrioritizedPayload :=
  { articles := [examplePrioritized "art-1" 87]
    metadata := ⟨10, 55, 87, 1⟩ }

/-- A concrete stats response mirroring the repository test fixture. -/
def exampleStatsResponse : StatsResponse :=
  ⟨⟨100, 50⟩, ⟨[⟨"2024-03-20", 5⟩], [⟨"2024-03-20", 3⟩]⟩⟩

/-- A concrete raw podcast mirroring the repository test fixture. -/
def exampleRawPodcast : RawPodcast :=
  ⟨"Test Podcast", "test.jpg",
    [⟨"Test Episode", "audio.mp3", "overcast.fm/123", "123", "2024-03-20",
      some 50, "2024-03-20", "Test summary"⟩]⟩

/-- The camelCase Podcast the raw fixture maps to. -/
def examplePodcast : Podcast :=
  ⟨"Test Podcast", "test.jpg",
    [⟨"Test Episode", "audio.mp3", "overcast.fm/123", "123", "2024-03-20",
      some 50, "2024-03-20", "Test summary"⟩]⟩

/-- WORDS_PER_MINUTE of calculateReadingTime (src/types/Article.ts). -/
def WORDS_PER_MINUTE : ℕ := 200

/-- calculateReadingTime of src/types/Article.ts.  The TypeScript input is
number | null (with an explicit undefined check); null and undefined are
both Option.none, and the integer word counts the dashboard passes are ℕ.
Math.ceil of the exact division is the rational ceiling. -/
def calculateReadingTime (wordCount : Option ℕ) : String :=
  match wordCount with
  | Option.none => "Unknown reading time"
  | some wc =>
    let minutes : ℕ := Nat.ceil ((wc : ℚ) / (WORDS_PER_MINUTE : ℚ))
    if minutes < 1 then "< 1 min read"
    else if minutes = 1 then "1 min read"
    else toString minutes ++ " min read"

end Frontend

open Prioritization

/-- C1: for every ComponentScores input with all six scores in [1,10], the
Priority Aggregator returns exactly 10 * (0.25 * quality + 0.15 *
info_density + 0.15 * readability + 0.20 * topic_relevance + 0.10 *
freshness + 0.15 * engagement), and it is deterministic: equal inputs give
equal outputs. -/
theorem aggregate_weighted_sum_identity (cs : ComponentScores)
    (h : validScores cs) :
    aggregate cs =
      10 * ((25 / 100) * cs.quality + (15 / 100) * cs.info_density +
        (15 / 100) * cs.readability + (20 / 100) * cs.topic_relevance +
        (10 / 100) * cs.freshness + (15 / 100) * cs.engagement) ∧
    ∀ cs₂ : ComponentScores, cs₂ = cs → aggregate cs₂ = aggregate cs := by
  constructor
  · unfold aggregate
    ring
  · intro cs₂ h₂
    rw [h₂]

/-- Witness for C1 at representative component scores close to the
documented output example (quality 9, info_density 9, readability 7,
relevance 9, freshness 8, engagement 8). -/
theorem aggregate_weighted_sum_identity_witness :
    validScores ⟨9, 9, 7, 9, 8, 8⟩ ∧
      (aggregate ⟨9, 9, 7, 9, 8, 8⟩ =
        10 * ((25 / 100) * 9 + (15 / 100) * 9 +
          (15 / 100) * 7 + (20 / 100) * 9 +
          (10 / 100) * 8 + (15 / 100) * 8) ∧
      ∀ cs₂ : ComponentScores,
        cs₂ = ⟨9, 9, 7, 9, 8, 8⟩ →
          aggregate cs₂ = aggregate ⟨9, 9, 7, 9, 8, 8⟩) :=
  ⟨by decide,
    aggregate_weighted_sum_identity ⟨9, 9, 7, 9, 8, 8⟩
      (by decide)⟩

/-- C2: every metric score produced through the clamping envelope lies in
[1,10], empty analyzable content still yields the lowest-bound score 1, and
for every ComponentScores with all six components in [1,10] the aggregated
PriorityScore lies in [10,100], inside the declared [0,100] range. -/
theorem component_and_priority_bounds (text : String) (raw : ℚ)
    (cs : ComponentScores) (h : validScores cs) :
    (1 ≤ metricScore text raw ∧ metricScore text raw ≤ 10) ∧
    metricScore "" raw = 1 ∧
    (10 ≤ aggregate cs ∧ aggregate cs ≤ 100) ∧
    (0 ≤ aggregate cs ∧ aggregate cs ≤ 100) := by
  obtain ⟨⟨hq1, hq2⟩, ⟨hd1, hd2⟩, ⟨hr1, hr2⟩, ⟨ht1, ht2⟩, ⟨hf1, hf2⟩,
    ⟨he1, he2⟩⟩ := h
  have hlo : 10 ≤ aggregate cs := by
    unfold aggregate
    linarith
  have hhi : aggregate cs ≤ 100 := by
    unfold aggregate
    linarith
  refine ⟨⟨?_, ?_⟩, ?_, ⟨hlo, hhi⟩, ⟨by linarith, hhi⟩⟩
  · unfold metricScore
    split
    · exact le_refl 1
    · exact le_max_left 1 _
  · unfold metricScore
    split
    · norm_num
    · exact max_le (by norm_num) (min_le_left 10 raw)
  · rfl

/-- Witness for C2 at nonempty text, raw signal 42 and all-minimum
component scores. -/
theorem component_and_priority_bounds_witness :
    validScores ⟨1, 1, 1, 1, 1, 1⟩ ∧
      ((1 ≤ metricScore "body text" 42 ∧ metricScore "body text" 42 ≤ 10) ∧
      metricScore "" 42 = 1 ∧
      (10 ≤ aggregate ⟨1, 1, 1, 1, 1, 1⟩ ∧ aggregate ⟨1, 1, 1, 1, 1, 1⟩ ≤ 100) ∧
      (0 ≤ aggregate ⟨1, 1, 1, 1, 1, 1⟩ ∧ aggregate ⟨1, 1, 1, 1, 1, 1⟩ ≤ 100)) :=
  ⟨by decide, component_and_priority_bounds "body text" 42 ⟨1, 1, 1, 1, 1, 1⟩ (by decide)⟩

/-- The fold of min over a list is a lower bound for the seed and every
element. -/
theorem foldl_min_le_of_mem :
    ∀ (l : List ℚ) (s x : ℚ), x ∈ s :: l → l.foldl min s ≤ x
  | [], s, x, hx => by
    simp only [List.mem_singleton] at hx
    subst hx
    simp
  | a :: l, s, x, hx => by
    simp only [List.foldl_cons]
    rcases List.mem_cons.mp hx with h1 | h1
    · subst h1
      exact le_trans
        (foldl_min_le_of_mem l (min x a) (min x a) (List.mem_cons_self _ _))
        (min_le_left x a)
    · rcases List.mem_cons.mp h1 with h2 | h2
      · subst h2
        exact le_trans
          (foldl_min_le_of_mem l (min s x) (min s x) (List.mem_cons_self _ _))
          (min_le_right s x)
      · exact foldl_min_le_of_mem l (min s a) x (List.mem_cons_of_mem _ h2)

/-- The fold of min over a list is the seed or one of the elements. -/
theorem foldl_min_mem : ∀ (l : List ℚ) (s : ℚ), l.foldl min s ∈ s :: l
  | [], s => by simp
  | a :: l, s => by
    simp only [List.foldl_cons]
    have h := foldl_min_mem l (min s a)
    rcases List.mem_cons.mp h with h1 | h1
    · rcases min_choice s a with h2 | h2
      · rw [h1, h2]
        exact List.mem_cons_self _ _
      · rw [h1, h2]
        exact List.mem_cons_of_mem _ (List.mem_cons_self _ _)
    · exact List.mem_cons_of_mem _ (List.mem_cons_of_mem _ h1)

/-- The fold of max over a list is an upper bound for the seed and every
element. -/
theorem le_foldl_max_of_mem :
    ∀ (l : List ℚ) (s x : ℚ), x ∈ s :: l → x ≤ l.foldl max s
  | [], s, x, hx => by
    simp only [List.mem_singleton] at hx
    subst hx
    simp
  | a :: l, s, x, hx => by
    simp only [List.foldl_cons]
    rcases List.mem_cons.mp hx with h1 | h1
    · subst h1
      exact le_trans (le_max_left x a)
        (le_foldl_max_of_mem l (max x a) (max x a) (List.mem_cons_self _ _))
    · rcases List.mem_cons.mp h1 with h2 | h2
      · subst h2
        exact le_trans (le_max_right s x)
          (le_foldl_max_of_mem l (max s x) (max s x) (List.mem_cons_self _ _))
      · exact le_foldl_max_of_mem l (max s a) x (List.mem_cons_of_mem _ h2)

/-- The fold of max over a list is the seed or one of the elements. -/
theorem foldl_max_mem : ∀ (l : List ℚ) (s : ℚ), l.foldl max s ∈ s :: l
  | [], s => by simp
  | a :: l, s => by
    simp only [List.foldl_cons]
    have h := foldl_max_mem l (max s a)
    rcases List.mem_cons.mp h with h1 | h1
    · rcases max_choice s a with h2 | h2
      · rw [h1, h2]
        exact List.mem_cons_self _ _
      · rw [h1, h2]
        exact List.mem_cons_of_mem _ (List.mem_cons_self _ _)
    · exact List.mem_cons_of_mem _ (List.mem_cons_of_mem _ h1)

/-- The articles field of a ranking is the sorted top-N slice. -/
theorem rank_articles_eq (records : List ScoredArticle) (topN : ℕ) :
    (rank records topN).articles =
      (List.insertionSort scoreDesc records).take topN := rfl

/-- The min_score metadata of a ranking is the batch minimum. -/
theorem rank_min_score_eq (records : List ScoredArticle) (topN : ℕ) :
    (rank records topN).metadata.min_score =
      batchMin (records.map ScoredArticle.priority_score) := rfl

/-- The max_score metadata of a ranking is the batch maximum. -/
theorem rank_max_score_eq (records : List ScoredArticle) (topN : ℕ) :
    (rank records topN).metadata.max_score =
      batchMax (records.map ScoredArticle.priority_score) := rfl

/-- C3: for every nonempty batch of N scored articles and every slice size
K, rank returns a list sorted in descending order of priority_score, with
total_processed equal to N and min_score / max_score equal to the true
minimum / maximum composite score over the entire processed batch, even
though only the top-K slice of articles is returned. -/
theorem rank_sorted_with_batch_metadata (records : List ScoredArticle)
    (topN : ℕ) (h : records ≠ []) :
    List.Sorted scoreDesc (rank records topN).articles ∧
    (rank records topN).metadata.total_processed = records.length ∧
    ((rank records topN).metadata.min_score ∈
        records.map ScoredArticle.priority_score ∧
      ∀ a ∈ records,
        (rank records topN).metadata.min_score ≤ a.priority_score) ∧
    ((rank records topN).metadata.max_score ∈
        records.map ScoredArticle.priority_score ∧
      ∀ a ∈ records,
        a.priority_score ≤ (rank records topN).metadata.max_score) := by
  refine ⟨?_, rfl, ⟨?_, ?_⟩, ⟨?_, ?_⟩⟩
  · rw [rank_articles_eq]
    exact List.Pairwise.sublist (List.take_sublist topN _)
      (List.sorted_insertionSort scoreDesc records)
  · rw [rank_min_score_eq]
    cases records with
    | nil => exact absurd rfl h
    | cons r rs =>
      simp only [List.map_cons, batchMin]
      exact foldl_min_mem _ _
  · intro a ha
    rw [rank_min_score_eq]
    cases records with
    | nil => exact absurd rfl h
    | cons r rs =>
      simp only [List.map_cons, batchMin]
      refine foldl_min_le_of_mem _ _ _ ?_
      have := List.mem_map_of_mem ScoredArticle.priority_score ha
      rwa [List.map_cons] at this
  · rw [rank_max_score_eq]
    cases records with
    | nil => exact absurd rfl h
    | cons r rs =>
      simp only [List.map_cons, batchMax]
      exact foldl_max_mem _ _
  · intro a ha
    rw [rank_max_score_eq]
    cases records with
    | nil => exact absurd rfl h
    | cons r rs =>
      simp only [List.map_cons, batchMax]
      refine le_foldl_max_of_mem _ _ _ ?_
      have := List.mem_map_of_mem ScoredArticle.priority_score ha
      rwa [List.map_cons] at this

/-- Witness for C3 at a concrete batch of three scored articles with a
top-2 slice. -/
theorem rank_sorted_with_batch_metadata_witness :
    exampleBatch ≠ [] ∧
      (List.Sorted scoreDesc (rank exampleBatch 2).articles ∧
      (rank exampleBatch 2).metadata.total_processed = exampleBatch.length ∧
      ((rank exampleBatch 2).metadata.min_score ∈
          exampleBatch.map ScoredArticle.priority_score ∧
        ∀ a ∈ exampleBatch,
          (rank exampleBatch 2).metadata.min_score ≤ a.priority_score) ∧
      ((rank exampleBatch 2).metadata.max_score ∈
          exampleBatch.map ScoredArticle.priority_score ∧
        ∀ a ∈ exampleBatch,
          a.priority_score ≤ (rank exampleBatch 2).metadata.max_score)) :=
  ⟨by decide, rank_sorted_with_batch_metadata exampleBatch 2 (by decide)⟩

/-- C4: for every article record whose source_url fetch fails (network
error, timeout, non-2xx response — the Option.none outcome — or an
empty/too-short extraction) and whose stored content field is absent or
empty while its summary is non-empty, the Content Resolver returns the
summary text with provenance summary.  The resolver is a total function
into ResolvedContent, so no such failure is ever propagated as a fatal
error for the batch. -/
theorem resolve_falls_back_to_summary
    (fetchOutcome content summaryField : Option String) (s : String)
    (hfetch : ∀ t, fetchOutcome = some t → viableText t = false)
    (hcontent : ∀ c, content = some c → viableText c = false)
    (hsummary : summaryField = some s) (hs : viableText s = true) :
    resolve fetchOutcome content summaryField = ⟨s, Provenance.summary⟩ := by
  subst hsummary
  have hsum : resolveFromSummary (some s) = ⟨s, Provenance.summary⟩ := by
    simp [resolveFromSummary, hs]
  have hstored : resolveFromStored content (some s) = ⟨s, Provenance.summary⟩ := by
    cases content with
    | none => simpa [resolveFromStored] using hsum
    | some c =>
      have hc := hcontent c rfl
      simp [resolveFromStored, hc, hsum]
  cases fetchOutcome with
  | none => simpa [resolve] using hstored
  | some t =>
    have ht := hfetch t rfl
    simp [resolve, ht, hstored]

/-- Witness for C4: the fetch yields only whitespace, the stored content is
the empty string, and the summary is non-empty. -/
theorem resolve_falls_back_to_summary_witness :
    (∀ t, (some "   " : Option String) = some t → viableText t = false) ∧
    (∀ c, (some "" : Option String) = some c → viableText c = false) ∧
    (some "A saved summary." : Option String) = some "A saved summary." ∧
    viableText "A saved summary." = true ∧
    resolve (some "   ") (some "") (some "A saved summary.") =
      ⟨"A saved summary.", Provenance.summary⟩ := by
  refine ⟨?_, ?_, rfl, by decide, ?_⟩
  · intro t ht
    injection ht with h3
    subst h3
    decide
  · intro c hc
    injection hc with h3
    subst h3
    decide
  · exact resolve_falls_back_to_summary (some "   ") (some "")
      (some "A saved summary.") "A saved summary."
      (fun t ht => by injection ht with h3; subst h3; decide)
      (fun c hc => by injection hc with h3; subst h3; decide)
      rfl (by decide)

/-- C5: for every antitone decay function and every pair of records
identical except for their age (now minus published_date, falling back to
saved_at when published_date is absent), the older record scores at most
the younger one, and both freshness scores are bounded below by the
configured evergreen floor. -/
theorem freshness_monotone_in_age (decay : ℚ → ℚ) (evergreenFloor now : ℚ)
    (pdOlder pdYounger : Option ℚ) (saOlder saYounger : ℚ)
    (hdecay : Antitone decay)
    (hage : articleAge now pdYounger saYounger ≤ articleAge now pdOlder saOlder) :
    freshnessScore decay evergreenFloor now pdOlder saOlder ≤
      freshnessScore decay evergreenFloor now pdYounger saYounger ∧
    evergreenFloor ≤ freshnessScore decay evergreenFloor now pdOlder saOlder ∧
    evergreenFloor ≤ freshnessScore decay evergreenFloor now pdYounger saYounger := by
  refine ⟨?_, le_max_left _ _, le_max_left _ _⟩
  unfold freshnessScore
  exact max_le_max le_rfl (hdecay hage)

/-- Witness for C5 with the linear decay 10 - age, evergreen floor 2, now at
day 1000, the older article published at day 100 and the younger at day
900 (both saved at day 0). -/
theorem freshness_monotone_in_age_witness :
    Antitone (fun a : ℚ => 10 - a) ∧
    articleAge 1000 (some 900) 0 ≤ articleAge 1000 (some 100) 0 ∧
    (freshnessScore (fun a : ℚ => 10 - a) 2 1000 (some 100) 0 ≤
        freshnessScore (fun a : ℚ => 10 - a) 2 1000 (some 900) 0 ∧
      2 ≤ freshnessScore (fun a : ℚ => 10 - a) 2 1000 (some 100) 0 ∧
      2 ≤ freshnessScore (fun a : ℚ => 10 - a) 2 1000 (some 900) 0) :=
  ⟨fun _ _ hab => sub_le_sub_left hab 10,
    sub_le_sub_left (by decide : (100:ℚ) ≤ 900) 1000,
    freshness_monotone_in_age (fun a : ℚ => 10 - a) 2 1000
      (some 100) (some 900) 0 0
      (fun _ _ hab => sub_le_sub_left hab 10)
      (sub_le_sub_left (by decide : (100:ℚ) ≤ 900) 1000)⟩

open Frontend

/-- C6: fetchPrioritizedArticles issues its GET against
{VITE_API_URL}/prioritization/sample; on an ok response it returns the
parsed payload (articles plus metadata with total_processed, min_score,
max_score, returned_count) exactly, and on every non-ok response with
status N it throws "HTTP error! status: N" and returns no payload. -/
theorem fetchPrioritizedArticles_contract (apiUrl : String)
    (resp : HttpResponse PrioritizedPayload) :
    prioritizedSampleUrl apiUrl = apiUrl ++ "/prioritization/sample" ∧
    (resp.ok = true → fetchPrioritizedArticles resp = Except.ok resp.body) ∧
    (resp.ok = false →
      fetchPrioritizedArticles resp =
        Except.error ("HTTP error! status: " ++ toString resp.status)) := by
  refine ⟨rfl, ?_, ?_⟩
  · intro hok
    simp [fetchPrioritizedArticles, hok]
  · intro hok
    simp [fetchPrioritizedArticles, httpErrorMessage, hok]

/-- Witness for C6 at a concrete base URL, one ok response carrying the
example payload, and one failed response with status 500. -/
theorem fetchPrioritizedArticles_contract_witness :
    prioritizedSampleUrl "http://localhost:8000" =
      "http://localhost:8000" ++ "/prioritization/sample" ∧
    ((HttpResponse.mk true 200 examplePayload).ok = true ∧
      fetchPrioritizedArticles (HttpResponse.mk true 200 examplePayload) =
        Except.ok (HttpResponse.mk true 200 examplePayload).body) ∧
    ((HttpResponse.mk false 500 examplePayload).ok = false ∧
      fetchPrioritizedArticles (HttpResponse.mk false 500 examplePayload) =
        Except.error ("HTTP error! status: " ++
          toString (HttpResponse.mk false 500 examplePayload).status)) :=
  ⟨(fetchPrioritizedArticles_contract "http://localhost:8000"
      (HttpResponse.mk true 200 examplePayload)).1,
    ⟨rfl, (fetchPrioritizedArticles_contract "http://localhost:8000"
      (HttpResponse.mk true 200 examplePayload)).2.1 rfl⟩,
    ⟨rfl, (fetchPrioritizedArticles_contract "http://localhost:8000"
      (HttpResponse.mk false 500 examplePayload)).2.2 rfl⟩⟩

/-- C7: archiveArticle posts to {VITE_API_URL}/reader/articles/{id}/archive;
in the Prioritized Articles view a successful call removes exactly the
entries with the archived id from the displayed list (every other listed
article is kept, in order, and the archived id no longer appears), while a
failed call leaves the displayed list entirely unchanged. -/
theorem handleArchive_contract (apiUrl articleId : String)
    (articles : List PrioritizedArticle) (e : String) :
    archiveArticleMethod = "POST" ∧
    archiveArticleUrl apiUrl articleId =
      apiUrl ++ "/reader" ++ "/articles/" ++ articleId ++ "/archive" ∧
    (∀ a, a ∈ handleArchive (Except.ok ()) articleId articles ↔
        (a ∈ articles ∧ a.id ≠ articleId)) ∧
    List.Sublist (handleArchive (Except.ok ()) articleId articles) articles ∧
    articleId ∉ (handleArchive (Except.ok ()) articleId articles).map
      (fun a => a.id) ∧
    handleArchive (Except.error e) articleId articles = articles := by
  refine ⟨rfl, rfl, ?_, ?_, ?_, rfl⟩
  · intro a
    simp only [handleArchive]
    rw [List.mem_filter]
    simp [bne_iff_ne]
  · simp only [handleArchive]
    exact List.filter_sublist _
  · intro hmem
    simp only [handleArchive] at hmem
    rcases List.mem_map.mp hmem with ⟨a, ha, hid⟩
    have hne := (List.mem_filter.mp ha).2
    rw [bne_iff_ne] at hne
    exact hne hid

/-- Witness for C7 on a two-article list, archiving the first article. -/
theorem handleArchive_contract_witness :
    archiveArticleMethod = "POST" ∧
    archiveArticleUrl "http://localhost:8000" "art-1" =
      "http://localhost:8000" ++ "/reader" ++ "/articles/" ++ "art-1" ++
        "/archive" ∧
    (∀ a, a ∈ handleArchive (Except.ok ()) "art-1"
          [examplePrioritized "art-1" 87, examplePrioritized "art-2" 55] ↔
        (a ∈ [examplePrioritized "art-1" 87, examplePrioritized "art-2" 55] ∧
          a.id ≠ "art-1")) ∧
    List.Sublist
      (handleArchive (Except.ok ()) "art-1"
        [examplePrioritized "art-1" 87, examplePrioritized "art-2" 55])
      [examplePrioritized "art-1" 87, examplePrioritized "art-2" 55] ∧
    "art-1" ∉ (handleArchive (Except.ok ()) "art-1"
        [examplePrioritized "art-1" 87, examplePrioritized "art-2" 55]).map
      (fun a => a.id) ∧
    handleArchive (Except.error "HTTP error! status: 500") "art-1"
        [examplePrioritized "art-1" 87, examplePrioritized "art-2" 55] =
      [examplePrioritized "art-1" 87, examplePrioritized "art-2" 55] :=
  handleArchive_contract "http://localhost:8000" "art-1"
    [examplePrioritized "art-1" 87, examplePrioritized "art-2" 55]
    "HTTP error! status: 500"

/-- C8: for every successful stats response, fetchDailyCounts returns
readCounts identical to daily_counts.archived, savedCounts identical to
daily_counts.later and totalCounts identical to total_counts: the "read"
figures shown on the dashboard are the archived-per-day counts. -/
theorem fetchDailyCounts_read_is_archived (resp : HttpResponse StatsResponse)
    (h : resp.ok = true) :
    fetchDailyCounts resp =
      Except.ok
        { readCounts := resp.body.daily_counts.archived
          savedCounts := resp.body.daily_counts.later
          totalCounts := resp.body.total_counts } := by
  simp [fetchDailyCounts, h]

/-- Witness for C8 at the stats fixture of the repository test. -/
theorem fetchDailyCounts_read_is_archived_witness :
    (HttpResponse.mk true 200 exampleStatsResponse).ok = true ∧
    fetchDailyCounts (HttpResponse.mk true 200 exampleStatsResponse) =
      Except.ok
        { readCounts :=
            (HttpResponse.mk true 200 exampleStatsResponse).body.daily_counts.archived
          savedCounts :=
            (HttpResponse.mk true 200 exampleStatsResponse).body.daily_counts.later
          totalCounts :=
            (HttpResponse.mk true 200 exampleStatsResponse).body.total_counts } :=
  ⟨rfl, fetchDailyCounts_read_is_archived
    (HttpResponse.mk true 200 exampleStatsResponse) rfl⟩

/-- Zipping a list with its image under a map pairs every element with its
image. -/
theorem zip_self_map {α β : Type} (l : List α) (f : α → β) :
    l.zip (l.map f) = l.map fun a => (a, f a) := by
  induction l with
  | nil => rfl
  | cons a t ih =>
    show (a, f a) :: t.zip (t.map f) = (a, f a) :: t.map fun a => (a, f a)
    rw [ih]

/-- C9: for every well-formed podcast payload, fetchEpisodes returns a list
of the same length and order in which each podcast has podcast_title mapped
to podcastTitle and artwork_url to artworkUrl, and each episode (same count
and order per podcast) has every snake_case field mapped to the
corresponding camelCase field with its value unchanged. -/
theorem fetchEpisodes_preserves_structure
    (resp : HttpResponse (List RawPodcast)) (ps : List Podcast)
    (hok : resp.ok = true) (hres : fetchEpisodes resp = Except.ok ps) :
    ps.length = resp.body.length ∧
    ∀ pr ∈ resp.body.zip ps,
      pr.2.podcastTitle = pr.1.podcast_title ∧
      pr.2.artworkUrl = pr.1.artwork_url ∧
      pr.2.episodes.length = pr.1.episodes.length ∧
      ∀ er ∈ pr.1.episodes.zip pr.2.episodes,
        er.2.episodeTitle = er.1.episode_title ∧
        er.2.audioUrl = er.1.audio_url ∧
        er.2.overcastUrl = er.1.overcast_url ∧
        er.2.overcastId = er.1.overcast_id ∧
        er.2.publishedDate = er.1.published_date ∧
        er.2.playProgress = er.1.play_progress ∧
        er.2.lastPlayedAt = er.1.last_played_at ∧
        er.2.summary = er.1.summary := by
  simp only [fetchEpisodes, hok, if_true, Except.ok.injEq] at hres
  subst hres
  constructor
  · exact List.length_map _ _
  · rw [zip_self_map]
    intro pr hpr
    rcases List.mem_map.mp hpr with ⟨p, hp, rfl⟩
    refine ⟨rfl, rfl, List.length_map _ _, ?_⟩
    rw [zip_self_map]
    intro er her
    rcases List.mem_map.mp her with ⟨ep, hep, rfl⟩
    exact ⟨rfl, rfl, rfl, rfl, rfl, rfl, rfl, rfl⟩

/-- Witness for C9 at the fixture of the repository episodes test: one
podcast with one episode. -/
theorem fetchEpisodes_preserves_structure_witness :
    (HttpResponse.mk true 200 [exampleRawPodcast]).ok = true ∧
    fetchEpisodes (HttpResponse.mk true 200 [exampleRawPodcast]) =
      Except.ok [examplePodcast] ∧
    ([examplePodcast].length =
        (HttpResponse.mk true 200 [exampleRawPodcast]).body.length ∧
      ∀ pr ∈ (HttpResponse.mk true 200 [exampleRawPodcast]).body.zip
          [examplePodcast],
        pr.2.podcastTitle = pr.1.podcast_title ∧
        pr.2.artworkUrl = pr.1.artwork_url ∧
        pr.2.episodes.length = pr.1.episodes.length ∧
        ∀ er ∈ pr.1.episodes.zip pr.2.episodes,
          er.2.episodeTitle = er.1.episode_title ∧
          er.2.audioUrl = er.1.audio_url ∧
          er.2.overcastUrl = er.1.overcast_url ∧
          er.2.overcastId = er.1.overcast_id ∧
          er.2.publishedDate = er.1.published_date ∧
          er.2.playProgress = er.1.play_progress ∧
          er.2.lastPlayedAt = er.1.last_played_at ∧
          er.2.summary = er.1.summary) :=
  ⟨rfl, rfl,
    fetchEpisodes_preserves_structure
      (HttpResponse.mk true 200 [exampleRawPodcast]) [examplePodcast]
      rfl rfl⟩

/-- The rational ceiling of a natural number divided by 200 is the rounded-up
natural division. -/
theorem natCeil_div_two_hundred (wc : ℕ) :
    Nat.ceil ((wc : ℚ) / 200) = (wc + 199) / 200 := by
  apply Nat.le_antisymm
  · rw [Nat.ceil_le, div_le_iff₀ (by norm_num : (0:ℚ) < 200)]
    have h1 : wc ≤ ((wc + 199) / 200) * 200 := by omega
    exact_mod_cast h1
  · rcases Nat.eq_zero_or_pos wc with h0 | hpos
    · subst h0
      norm_num
    · have hlt : ((wc + 199) / 200 - 1) < Nat.ceil ((wc : ℚ) / 200) := by
        rw [Nat.lt_ceil, lt_div_iff₀ (by norm_num : (0:ℚ) < 200)]
        have h2 : ((wc + 199) / 200 - 1) * 200 < wc := by omega
        exact_mod_cast h2
      omega

/-- C10: calculateReadingTime is total over its number-or-null input: null
or undefined yields "Unknown reading time", a zero word count yields
"< 1 min read", a word count between 1 and 200 yields "1 min read", and a
word count above 200 yields the rounded-up number of 200-words-per-minute
minutes followed by " min read"; no input throws or produces NaN text. -/
theorem calculateReadingTime_total (wc : ℕ) :
    calculateReadingTime Option.none = "Unknown reading time" ∧
    calculateReadingTime (some 0) = "< 1 min read" ∧
    (1 ≤ wc → wc ≤ 200 → calculateReadingTime (some wc) = "1 min read") ∧
    (200 < wc →
      calculateReadingTime (some wc) =
        toString (Nat.ceil ((wc : ℚ) / 200)) ++ " min read" ∧
      Nat.ceil ((wc : ℚ) / 200) = (wc + 199) / 200) := by
  have h200 : ((WORDS_PER_MINUTE : ℕ) : ℚ) = 200 := by
    norm_num [WORDS_PER_MINUTE]
  have hmin : ∀ n : ℕ,
      Nat.ceil ((n : ℚ) / (WORDS_PER_MINUTE : ℚ)) = (n + 199) / 200 := by
    intro n
    rw [h200]
    exact natCeil_div_two_hundred n
  refine ⟨rfl, ?_, ?_, ?_⟩
  · simp only [calculateReadingTime, hmin 0]
    norm_num
  · intro h1 h2
    have hone : (wc + 199) / 200 = 1 := by omega
    simp only [calculateReadingTime, hmin wc, hone]
    norm_num
  · intro h3
    have hge : ¬((wc + 199) / 200 < 1) := by omega
    have hne : ¬((wc + 199) / 200 = 1) := by omega
    constructor
    · simp only [calculateReadingTime, hmin wc, natCeil_div_two_hundred wc]
      rw [if_neg hge, if_neg hne]
    · exact natCeil_div_two_hundred wc

/-- Witness for C10 at word counts 150 (one minute) and 500 (three
minutes), plus the null and zero cases. -/
theorem calculateReadingTime_total_witness :
    (1 ≤ 150 ∧ 150 ≤ 200 ∧ calculateReadingTime (some 150) = "1 min read") ∧
    (200 < 500 ∧
      (calculateReadingTime (some 500) =
          toString (Nat.ceil (((500 : ℕ) : ℚ) / 200)) ++ " min read" ∧
        Nat.ceil (((500 : ℕ) : ℚ) / 200) = (500 + 199) / 200)) ∧
    calculateReadingTime Option.none = "Unknown reading time" ∧
    calculateReadingTime (some 0) = "< 1 min read" :=
  ⟨⟨by decide, by decide,
      (calculateReadingTime_total 150).2.2.1 (by decide) (by decide)⟩,
    ⟨by decide, (calculateReadingTime_total 500).2.2.2 (by decide)⟩,
    (calculateReadingTime_total 0).1, (calculateReadingTime_total 0).2.1⟩
